import Mathlib

/-!
Shallow embedding of the mentor-chatbot core (`bot.py`): the intent router
`chat`, the grade engine (`calculate_grade`, `parse_subject_scores`,
`add_or_update_marks`, `show_marks_table`, `student_marks_tool`), name
binding (`extract_name`, name phase of `chat`) and the per-session state
(name, marks, history).

Conventions of the embedding:
* Python strings are Lean `String`s; most character-level work happens on
  `List Char` via `String.data`.
* Python's global per-session dictionaries are modelled per session id:
  all bot operations touch only the entry for the session id they are
  given, so state is one session's record (`SessionData`) wrapped in
  `Option` to record whether the session exists yet (lazy creation).
* The external text-generation service and the LangChain fallback agent
  are opaque collaborators, modelled by an `Oracle` record of functions.
* Python `re.findall` for the two concrete fixed patterns in the source is
  modelled by direct scanners implementing leftmost, non-overlapping
  matching with the exact greedy/backtracking behaviour these particular
  patterns exhibit (justified case by case in comments).
* Floating point only occurs in the average (`total / len(marks)`); the
  embedding computes the displayed average and its bracket comparisons
  with exact integer/rational arithmetic (the Python float is a rounding
  of the same rational; no claim depends on the float-vs-rational gap).
-/

/-! ## Character and string helpers (Python semantics, ASCII fragment) -/

/-- Python whitespace characters (`str.strip`, `\s`, `str.split`): space,
tab, newline, carriage return, form feed, vertical tab. -/
def pyIsSpace (c : Char) : Bool :=
  c == ' ' || c == '\t' || c == '\n' || c == '\x0d' || c == '\x0c' || c == '\x0b'

/-- The character class `[A-Za-z ]` of the source's subject patterns. -/
def isAlphaSpaceChar (c : Char) : Bool :=
  c.isAlpha || c == ' '

/-- The separator class `[-=:]` of pattern 1. -/
def isSepChar (c : Char) : Bool :=
  c == '-' || c == '=' || c == ':'

/-- Python `str.strip` on a character list. -/
def pyStripL (l : List Char) : List Char :=
  ((l.dropWhile pyIsSpace).reverse.dropWhile pyIsSpace).reverse

/-- Python `str.strip` on a string. -/
def pyStrip (s : String) : String :=
  String.mk (pyStripL s.data)

/-- Python `str.lower` (ASCII fragment, which covers every string the
source compares). -/
def pyLower (s : String) : String :=
  String.mk (s.data.map Char.toLower)

/-- Python `str.title` on a character list: a letter is uppercased when the
previous character is not a letter, lowercased otherwise. -/
def pyTitleL : Bool → List Char → List Char
  | _, [] => []
  | prevAlpha, c :: cs =>
    if c.isAlpha then
      (if prevAlpha then c.toLower else c.toUpper) :: pyTitleL true cs
    else
      c :: pyTitleL false cs

/-- Python `str.title` on a string. -/
def pyTitle (s : String) : String :=
  String.mk (pyTitleL false s.data)

/-- Does `l` start with `p` (exact characters)? -/
def listStartsWith : List Char → List Char → Bool
  | [], _ => true
  | _ :: _, [] => false
  | a :: as, b :: bs => a == b && listStartsWith as bs

/-- Is `needle` a contiguous substring of `hay` (Python `needle in hay`)? -/
def listContainsSub (needle : List Char) : List Char → Bool
  | [] => listStartsWith needle []
  | c :: cs => listStartsWith needle (c :: cs) || listContainsSub needle cs

/-- Python `needle in hay` for strings. -/
def strContains (hay needle : String) : Bool :=
  listContainsSub needle.data hay.data

/-- `any(kw in hay for kw in kws)`: the source's keyword membership test. -/
def containsAnyKw (hay : String) (kws : List String) : Bool :=
  kws.any (fun k => strContains hay k)

/-- `re.search(r"\d", text)` as a Boolean: does the text contain a digit? -/
def hasDigitStr (s : String) : Bool :=
  s.data.any Char.isDigit

/-- Numeric value of a digit list (`int` applied to a digit string). -/
def digitsToNat (l : List Char) : Nat :=
  l.foldl (fun a c => 10 * a + (c.toNat - '0'.toNat)) 0

/-- Python `str.split()` (no separator): split on whitespace runs,
dropping empty fragments.  The accumulator holds the current token
reversed. -/
def splitWsAux (cur : List Char) : List Char → List (List Char)
  | [] => if cur.isEmpty then [] else [cur.reverse]
  | c :: cs =>
    if pyIsSpace c then
      if cur.isEmpty then splitWsAux [] cs else cur.reverse :: splitWsAux [] cs
    else
      splitWsAux (c :: cur) cs

/-- Python `str.split()` on a character list. -/
def splitWs (l : List Char) : List (List Char) :=
  splitWsAux [] l

/-- Python `str.isdigit` (ASCII fragment): nonempty and all digits. -/
def isDigitsTok (l : List Char) : Bool :=
  !l.isEmpty && l.all Char.isDigit

/-! ## Grade engine: `calculate_grade` (bot.py lines 57-71) -/

/-- `calculate_grade(score)`: the fixed threshold chain of the source. -/
def calculate_grade (score : Int) : String :=
  if score ≥ 90 then "S"
  else if score ≥ 80 then "A"
  else if score ≥ 70 then "B"
  else if score ≥ 60 then "C"
  else if score ≥ 50 then "D"
  else if score ≥ 40 then "E"
  else "F"

/-- Rank of a grade letter, used only to state that grades never improve
as scores drop (S best, F worst). -/
def gradeRank (g : String) : Nat :=
  if g = "S" then 6
  else if g = "A" then 5
  else if g = "B" then 4
  else if g = "C" then 3
  else if g = "D" then 2
  else if g = "E" then 1
  else 0

/-! ## `re.findall` model for the two fixed patterns (bot.py lines 85, 91)

`re.findall` scans left to right: at each position it attempts a match; on
success it records the groups and resumes after the consumed characters,
otherwise it advances one character.  Both patterns need at least one
character, so the end-of-string position never matches and a fuel argument
equal to the input length bounds the scan. -/

/-- Generic findall scanner.  `matchAt` returns the extracted pair and the
number of characters consumed (always ≥ 1 for the patterns below; `max k 1`
merely documents progress for the fuel argument). -/
def reFindAll (matchAt : List Char → Option ((String × Int) × Nat)) :
    Nat → List Char → List (String × Int)
  | 0, _ => []
  | _ + 1, [] => []
  | fuel + 1, c :: cs =>
    match matchAt (c :: cs) with
    | some (a, k) => a :: reFindAll matchAt fuel ((c :: cs).drop (max k 1))
    | none => reFindAll matchAt fuel cs

/-- Attempt of pattern 1 `([A-Za-z ]+)\s*[-=:]\s*(\d{1,3})` at the head of
`s`.

Backtracking note: the group `[A-Za-z ]+` is greedy.  A separator character
is neither in `[A-Za-z ]` nor in `\s`, so the first separator the engine
can reach is the first character outside both the class run and the
whitespace run following it; shortening the group only re-reaches the same
character (the skipped characters are class characters, and `\s*` accepts
the space ones).  Hence the match succeeds exactly when the maximal class
run (≥ 1 chars) is followed, after further non-space whitespace, by a
separator, and the captured group is the maximal run. -/
def match1At (s : List Char) : Option ((String × Int) × Nat) :=
  let subj := s.takeWhile isAlphaSpaceChar
  if subj.isEmpty then none
  else
    let t := s.drop subj.length
    let w1 := t.takeWhile pyIsSpace
    match t.drop w1.length with
    | [] => none
    | c :: t2 =>
      if isSepChar c then
        let w2 := t2.takeWhile pyIsSpace
        let t3 := t2.drop w2.length
        let ds := (t3.takeWhile Char.isDigit).take 3
        if ds.isEmpty then none
        else
          some ((pyTitle (pyStrip (String.mk subj)), (digitsToNat ds : Int)),
            subj.length + w1.length + 1 + w2.length + ds.length)
      else none

/-- `\s+` then the subject group of pattern 2: try whitespace lengths from
`w` down to 1 (greedy `\s+` backtracks one character at a time) until the
remainder starts with an `[A-Za-z ]` character; the group is then the
maximal class run.  Returns the group and the whitespace length used. -/
def tryGroup2 (t : List Char) : Nat → Option (List Char × Nat)
  | 0 => none
  | w + 1 =>
    let g := (t.drop (w + 1)).takeWhile isAlphaSpaceChar
    if g.isEmpty then tryGroup2 t w else some (g, w + 1)

/-- Attempt of pattern 2 `(\d{1,3})\s+in\s+([A-Za-z ]+)` (IGNORECASE) at
the head of `s`, with the digit group fixed to length `k`. -/
def try2Tail (s : List Char) (k : Nat) : Option ((String × Int) × Nat) :=
  let t := s.drop k
  let w1 := t.takeWhile pyIsSpace
  if w1.isEmpty then none
  else
    match t.drop w1.length with
    | i :: n :: t2 =>
      if i.toLower == 'i' && n.toLower == 'n' then
        match tryGroup2 t2 ((t2.takeWhile pyIsSpace).length) with
        | some (g, w2) =>
          some ((pyTitle (pyStrip (String.mk g)), (digitsToNat (s.take k) : Int)),
            k + w1.length + 2 + w2 + g.length)
        | none => none
      else none
    | _ => none

/-- Greedy `\d{1,3}`: try digit-group lengths from `k` down to 1. -/
def match2Go (s : List Char) : Nat → Option ((String × Int) × Nat)
  | 0 => none
  | k + 1 =>
    match try2Tail s (k + 1) with
    | some r => some r
    | none => match2Go s k

/-- Attempt of pattern 2 at the head of `s`. -/
def match2At (s : List Char) : Option ((String × Int) × Nat) :=
  let ds := s.takeWhile Char.isDigit
  if ds.isEmpty then none else match2Go s (min 3 ds.length)

/-- All matches of pattern 1 in `text` (first loop of
`parse_subject_scores`). -/
def findallPat1 (text : String) : List (String × Int) :=
  reFindAll match1At text.data.length text.data

/-- All matches of pattern 2 in `text` (second loop of
`parse_subject_scores`). -/
def findallPat2 (text : String) : List (String × Int) :=
  reFindAll match2At text.data.length text.data

/-- Fallback token scan (third strategy): `text.replace(",", " ").split()`,
then every adjacent pair whose second token is all digits. -/
def adjacentTokenPairs : List (List Char) → List (String × Int)
  | a :: b :: rest =>
    (if isDigitsTok b then
      [(pyTitle (pyStrip (String.mk a)), (digitsToNat b : Int))]
    else []) ++ adjacentTokenPairs (b :: rest)
  | _ => []

/-- Third strategy of `parse_subject_scores` on the whole text. -/
def fallbackTokenScan (text : String) : List (String × Int) :=
  adjacentTokenPairs (splitWs (text.data.map (fun c => if c == ',' then ' ' else c)))

/-- `parse_subject_scores(text)` (bot.py lines 74-107): the two findall
loops both append to `pairs`; the token scan runs only if `pairs` is still
empty. -/
def parse_subject_scores (text : String) : List (String × Int) :=
  let pairs := findallPat1 text ++ findallPat2 text
  if pairs.isEmpty then fallbackTokenScan text else pairs

/-! ## Session state and external collaborators -/

/-- One session's state: the Python per-session dicts
`sessions[sid] = {"name": ..., "marks": ...}` plus the conversation memory
for that sid, flattened to the ordered list of (user input, bot output)
pairs that `save_context` appends.  `marks` is an insertion-ordered
association list, exactly a Python dict's iteration behaviour. -/
structure SessionData where
  name : Option String
  marks : List (String × Int)
  history : List (String × String)
deriving Repr, DecidableEq

/-- `get_or_create_session`: lazy creation of `{"name": None, "marks": {}}`
(and of the empty conversation memory). -/
def getOrCreate : Option SessionData → SessionData
  | some s => s
  | none => ⟨none, [], []⟩

/-- The external collaborators, opaque to the core: `invoke` is the
text-generation service (prompt in, completion out); `agentRun` is the
LangChain fallback agent, which produces a reply and the memory contents
after its own bookkeeping, or fails (`none`), which the source catches. -/
structure Oracle where
  invoke : String → String
  agentRun : String → List (String × String) → Option (String × List (String × String))

/-- `mem.save_context({"input": t}, {"output": r})`: append one turn. -/
def appendHistory (s : SessionData) (t r : String) : SessionData :=
  { s with history := s.history ++ [(t, r)] }

/-! ## Marks storage and rendering -/

/-- The clamp `max(0, min(int(score), 100))` (bot.py line 119). -/
def clampScore (v : Int) : Int :=
  max 0 (min v 100)

/-- `marks[subject] = score` on an insertion-ordered dict: overwrite in
place if the key exists, else append. -/
def upsertPair (m : List (String × Int)) (k : String) (v : Int) :
    List (String × Int) :=
  if m.any (fun p => p.1 == k) then
    m.map (fun p => if p.1 == k then (k, v) else p)
  else m ++ [(k, v)]

/-- Running total of scores in dict iteration order. -/
def marksTotal (m : List (String × Int)) : Int :=
  m.foldl (fun a p => a + p.2) 0

/-- One table row `| {subject} | {score} | {grade} |` per mark. -/
def marksRows (m : List (String × Int)) : List String :=
  m.map (fun p => "| " ++ p.1 ++ " | " ++ toString p.2 ++ " | " ++ calculate_grade p.2 ++ " |")

/-- Round-half-to-even of the rational `a / b` for `b > 0` — the rounding
Python's `round` applies to the average. -/
def roundHalfEvenDiv (a b : Int) : Int :=
  let q := a.ediv b
  let r := a.emod b
  if 2 * r < b then q
  else if b < 2 * r then q + 1
  else if q.emod 2 = 0 then q else q + 1

/-- `int(round(avg))` where `avg = total / len` (or the literal `0` when
there are no marks). -/
def roundedAvg (total : Int) (len : Nat) : Int :=
  if len = 0 then 0 else roundHalfEvenDiv total len

/-- Two-digit zero padding for the fraction part of the average. -/
def pad2 (n : Nat) : String :=
  if n < 10 then "0" ++ toString n else toString n

/-- `f"{avg:.2f}"` for `avg = total / len`, computed exactly on the
rational (the Python float is the nearest double of the same rational). -/
def formatAvg2 (total : Int) (len : Nat) : String :=
  if len = 0 then "0.00"
  else
    let v := roundHalfEvenDiv (total * 100) len
    toString (v.ediv 100) ++ "." ++ pad2 (v.emod 100).toNat

/-- `avg >= thr` for `avg = total / len`, as an exact comparison (with the
source's `avg = 0` when there are no marks). -/
def avgAtLeast (total : Int) (len : Nat) (thr : Int) : Bool :=
  if len = 0 then thr ≤ 0 else thr * len ≤ total

/-- The `Overall: ...` line shared by both renders. -/
def overallLine (total : Int) (len : Nat) : String :=
  "Overall: **" ++ formatAvg2 total len ++ "% → Grade "
    ++ calculate_grade (roundedAvg total len) ++ "**."

/-- The tone-matched encouragement line of `add_or_update_marks`. -/
def encouragementLine (total : Int) (len : Nat) : String :=
  if avgAtLeast total len 80 then
    "Great work. That’s the right direction—keep pushing yourself."
  else if avgAtLeast total len 60 then
    "Good progress. With steady effort, you can push this even higher."
  else if avgAtLeast total len 40 then
    "You’re passing. Let’s focus on lifting the weaker subjects next."
  else
    "It’s okay to have low scores sometimes. We can build a better plan from here."

/-- The grade-scale legend appended to both renders (note the leading
newline of the source literal). -/
def legendLine : String :=
  "\n(Grade scale: S≥90, A≥80, B≥70, C≥60, D≥50, E≥40, F<40)"

/-- The table built by `add_or_update_marks` after writing the new
marks. -/
def renderUpdated (m : List (String × Int)) : String :=
  String.intercalate "\n"
    (["Here are your updated grades:\n",
      "| Subject | Marks | Grade |",
      "|--------|-------|-------|"]
      ++ marksRows m
      ++ ["", overallLine (marksTotal m) m.length,
          encouragementLine (marksTotal m) m.length, legendLine])

/-- The table built by `show_marks_table` (different header, no
encouragement line). -/
def renderSummary (m : List (String × Int)) : String :=
  String.intercalate "\n"
    (["Here is your grade summary:\n",
      "| Subject | Marks | Grade |",
      "|--------|-------|-------|"]
      ++ marksRows m
      ++ ["", overallLine (marksTotal m) m.length, legendLine])

/-- Guidance reply of `add_or_update_marks` when nothing parsed. -/
def cantParseMsg : String :=
  "I couldn’t find any marks. Try like: \x27Maths - 91, Physics - 80\x27."

/-- Reply of `show_marks_table` when no marks are stored. -/
def noMarksMsg : String :=
  "I don’t have any marks saved yet. Tell me your scores like: \x27Maths - 91, Physics - 80\x27."

/-- Default reply of `student_marks_tool` when neither branch applies. -/
def guidanceMsg : String :=
  "Tell me your marks like: \x27Maths - 91, Physics - 80\x27 and I’ll calculate grades for you."

/-- Grade-scale reply of `student_marks_tool`. -/
def scaleMsg : String :=
  "(Grade scale: S≥90, A≥80, B≥70, C≥60, D≥50, E≥40, F<40)"

/-- `add_or_update_marks(text, session_id)` (bot.py lines 110-154): parse;
if nothing parsed, reply with guidance and leave state alone; otherwise
clamp and upsert every parsed pair in order, then render the whole updated
table. -/
def add_or_update_marks (text : String) (st : Option SessionData) :
    String × SessionData :=
  let s := getOrCreate st
  let pairs := parse_subject_scores text
  if pairs.isEmpty then (cantParseMsg, s)
  else
    let m2 := pairs.foldl (fun acc p => upsertPair acc p.1 (clampScore p.2)) s.marks
    (renderUpdated m2, { s with marks := m2 })

/-- `show_marks_table(session_id)` (bot.py lines 157-182): empty-marks
guard, else render without mutation. -/
def show_marks_table (st : Option SessionData) : String × SessionData :=
  let s := getOrCreate st
  if s.marks.isEmpty then (noMarksMsg, s) else (renderSummary s.marks, s)

/-- Scale-question keywords of `student_marks_tool`. -/
def SCALE_KEYWORDS : List String :=
  ["scale", "grading", "criteria", "grade range"]

/-- `wants_report` keywords of `student_marks_tool` — note: no "score" or
"scores", unlike the router's list. -/
def REPORT_KEYWORDS : List String :=
  ["grade", "grades", "average", "marks", "mark", "result", "report", "table", "summary"]

/-- `student_marks_tool(text, session_id)` (bot.py lines 231-265). -/
def student_marks_tool (text : String) (st : Option SessionData) :
    String × SessionData :=
  let s := getOrCreate st
  let lower := pyLower text
  if containsAnyKw lower SCALE_KEYWORDS then (scaleMsg, s)
  else if hasDigitStr text then add_or_update_marks text (some s)
  else if containsAnyKw lower REPORT_KEYWORDS then show_marks_table (some s)
  else (guidanceMsg, s)

/-- `self_harm_safety_tool`: fixed template, ignores its input, touches no
external service (bot.py lines 268-274). -/
def safetyText : String :=
  "I’m really sorry you’re feeling like this.\n"
    ++ "I’m not able to help directly, but you should reach out to someone who can support you right now.\n"
    ++ "India → Aasra: +91 9820466726 | iCall: 022-25521111\n"
    ++ "You’re not alone. Please talk to someone immediately."

/-! ## Prompt construction and affect generators -/

/-- `get_recent_history`: render each stored turn as a `USER:` line
followed by a `BOT:` line, joined with newlines. -/
def historyText (hist : List (String × String)) : String :=
  String.intercalate "\n"
    (hist.foldr (fun p acc => ("USER: " ++ p.1) :: ("BOT: " ++ p.2) :: acc) [])

/-- The f-string prompt of `positive_prompt_tool` (bot.py lines 190-207),
with the history and message interpolated. -/
def positivePrompt (h text : String) : String :=
  "\nYou are a motivating study mentor.\n\nConversation so far:\n" ++ h
    ++ "\n\nUser: " ++ text
    ++ "\n\nGoals:\n- Acknowledge their positive feeling.\n- Sound energetic but not cringe.\n"
    ++ "- Focus only on the user (use \"you\", not \"I\").\n"
    ++ "- NEVER talk about your own feelings or what \"someone told you\".\n"
    ++ "- End with one mentor-style question like:\n  \"What achievement made your day?\" or\n"
    ++ "  \"What are you most proud of today?\"\nKeep it within 2–3 sentences.\n"

/-- The f-string prompt of `negative_prompt_tool` (bot.py lines 213-227). -/
def negativePrompt (h text : String) : String :=
  "\nYou are a calm, motivating mentor.\n\nConversation so far:\n" ++ h
    ++ "\n\nUser: " ++ text
    ++ "\n\nGoals:\n- Acknowledge their feeling (stress, sadness, etc.).\n"
    ++ "- Normalize the struggle (it\x27s okay, it happens).\n"
    ++ "- Suggest one small, specific action they can take today to feel more in control.\n"
    ++ "- Keep the focus on \"you\", not \"I\".\n- Keep it concise (2–3 sentences).\n"

/-- `positive_prompt_tool`: build the prompt from the session history,
invoke the service, strip the completion. -/
def positive_prompt_tool (o : Oracle) (text : String) (s : SessionData) : String :=
  pyStrip (o.invoke (positivePrompt (historyText s.history) text))

/-- `negative_prompt_tool`: same shape with the calm-mentor prompt. -/
def negative_prompt_tool (o : Oracle) (text : String) (s : SessionData) : String :=
  pyStrip (o.invoke (negativePrompt (historyText s.history) text))

/-! ## Name extraction (bot.py lines 342-369) -/

/-- Case-insensitive literal-prefix match (the pattern alternatives are
lowercase literals; IGNORECASE lowers the subject character).  Returns the
rest of the input after the literal. -/
def matchPhraseCI : List Char → List Char → Option (List Char)
  | [], rest => some rest
  | _ :: _, [] => none
  | p :: ps, c :: cs => if p == c.toLower then matchPhraseCI ps cs else none

/-- The alternation `my name is|i am|i'm|this is`, in pattern order. -/
def NAME_PHRASES : List (List Char) :=
  [("my name is").data, ("i am").data, ("i\x27m").data, ("this is").data]

/-- At one position, try each alternative in order; after a literal the
pattern needs `\s+` (maximal, since letters are not whitespace) and then a
nonempty `[A-Za-z]+` group (maximal, the pattern ends there). -/
def tryPhrases : List (List Char) → List Char → Option (List Char)
  | [], _ => none
  | p :: ps, s =>
    match matchPhraseCI p s with
    | some rest =>
      let w := rest.takeWhile pyIsSpace
      if w.isEmpty then tryPhrases ps s
      else
        let g := (rest.drop w.length).takeWhile Char.isAlpha
        if g.isEmpty then tryPhrases ps s else some g
    | none => tryPhrases ps s

/-- `re.search` for the name pattern: first position (leftmost) with a
match wins. -/
def nameSearch : List Char → Option (List Char)
  | [] => none
  | c :: cs =>
    match tryPhrases NAME_PHRASES (c :: cs) with
    | some g => some g
    | none => nameSearch cs

/-- `extract_name(text)`: the introduction-phrase pattern, else the last
whitespace token, else "Friend". -/
def extract_name (text : String) : String :=
  match nameSearch text.data with
  | some g => pyTitle (String.mk g)
  | none =>
    match (splitWs (pyStripL text.data)).getLast? with
    | some t => pyTitle (String.mk t)
    | none => "Friend"

/-! ## The chat router (bot.py lines 375-474) -/

/-- `SUICIDE_KEYWORDS` (bot.py lines 375-383). -/
def SUICIDE_KEYWORDS : List String :=
  ["suicide", "kill myself", "want to die", "end my life", "hurt myself",
   "no point living", "cut myself"]

/-- Exit lexicon of router step 2. -/
def EXIT_WORDS : List String :=
  ["bye", "goodbye", "see you", "take care"]

/-- Router step 4 grading keywords — note: includes "score" and "scores",
unlike the tool's report list. -/
def ROUTER_KEYWORDS : List String :=
  ["grade", "grades", "score", "scores", "marks", "mark", "average",
   "result", "report", "table"]

/-- Positive-emotion lexicon of router step 5. -/
def POSITIVE_WORDS : List String :=
  ["happy", "excited", "great", "awesome", "glad", "delighted"]

/-- Negative-emotion lexicon of router step 6. -/
def NEGATIVE_WORDS : List String :=
  ["sad", "upset", "depressed", "stressed", "anxious", "worried", "lonely",
   "tired", "angry", "frustrated", "overwhelmed"]

/-- `f"Bye {name or 'Friend'}. ..."`: Python `or` falls back on `None` and
on the empty string. -/
def byeReply (name : Option String) : String :=
  "Bye " ++ (match name with
    | some n => if n = "" then "Friend" else n
    | none => "Friend")
    ++ ". Keep going—you’re capable of more than you think."

/-- Canned recovery reply of the fallback branch's `except` arm. -/
def agentErrMsg : String :=
  "I had trouble understanding that. Try rephrasing or ask something else."

/-- `chat(message, session_id)` (bot.py lines 386-474), for one session:
lazy creation, empty-input guard, then the priority chain — safety, exit,
name phase, academic, positive affect, negative affect, LangChain fallback.
The `message` argument is `Option String` because the source guards
`(message or "")` against `None`.  Every branch returns the reply and the
session state (including conversation memory) after the turn. -/
def chat (o : Oracle) (message : Option String) (st : Option SessionData) :
    String × SessionData :=
  let s := getOrCreate st
  let text := pyStrip (message.getD "")
  if text = "" then ("Please type something.", s)
  else
    let lower := pyLower text
    if containsAnyKw lower SUICIDE_KEYWORDS then
      (safetyText, appendHistory s text safetyText)
    else if containsAnyKw lower EXIT_WORDS then
      (byeReply s.name, s)
    else
      match s.name with
      | none =>
        let clean := extract_name text
        ("Nice to meet you, " ++ clean ++ ". What would you like to work on today?",
          { name := some clean, marks := s.marks,
            history := s.history
              ++ [("My name is " ++ clean, "Stored name: " ++ clean ++ ".")] })
      | some _ =>
        if hasDigitStr text || containsAnyKw lower ROUTER_KEYWORDS then
          let r := student_marks_tool text (some s)
          (r.1, appendHistory r.2 text r.1)
        else if containsAnyKw lower POSITIVE_WORDS then
          let reply := positive_prompt_tool o text s
          (reply, appendHistory s text reply)
        else if containsAnyKw lower NEGATIVE_WORDS then
          let reply := negative_prompt_tool o text s
          (reply, appendHistory s text reply)
        else
          match o.agentRun text s.history with
          | some (reply, h) => (reply, { s with history := h })
          | none => (agentErrMsg, s)

/-- A concrete collaborator instance used by closed witness statements. -/
def trivialOracle : Oracle :=
  ⟨fun _ => "ok", fun t h => some ("ok", h ++ [(t, "ok")])⟩

/-! ## Claims -/

/-- The rank of the computed grade as a numeric step function. -/
lemma gradeRank_grade_eq (s : Int) :
    gradeRank (calculate_grade s)
      = if 90 ≤ s then 6 else if 80 ≤ s then 5 else if 70 ≤ s then 4
        else if 60 ≤ s then 3 else if 50 ≤ s then 2 else if 40 ≤ s then 1
        else 0 := by
  unfold calculate_grade
  split_ifs <;> decide

set_option maxHeartbeats 1000000 in
/-- Claim C3: `calculate_grade` is a pure total step function over all
integers — S for score ≥ 90, A for ≥ 80, B for ≥ 70, C for ≥ 60, D for
≥ 50, E for ≥ 40, F otherwise; its value is always one of the seven
letters; its rank is monotone in the score (the grade never improves when
the score drops); and each boundary value 90/80/70/60/50/40 lands exactly
on the higher grade. -/
theorem C3_grade_step_function :
    (∀ s : Int, calculate_grade s = "S" ∨ calculate_grade s = "A"
      ∨ calculate_grade s = "B" ∨ calculate_grade s = "C"
      ∨ calculate_grade s = "D" ∨ calculate_grade s = "E"
      ∨ calculate_grade s = "F")
    ∧ (∀ s : Int,
        (90 ≤ s → calculate_grade s = "S")
        ∧ (80 ≤ s → s < 90 → calculate_grade s = "A")
        ∧ (70 ≤ s → s < 80 → calculate_grade s = "B")
        ∧ (60 ≤ s → s < 70 → calculate_grade s = "C")
        ∧ (50 ≤ s → s < 60 → calculate_grade s = "D")
        ∧ (40 ≤ s → s < 50 → calculate_grade s = "E")
        ∧ (s < 40 → calculate_grade s = "F"))
    ∧ (∀ s t : Int, s ≤ t →
        gradeRank (calculate_grade s) ≤ gradeRank (calculate_grade t))
    ∧ (calculate_grade 90 = "S" ∧ calculate_grade 89 = "A"
      ∧ calculate_grade 80 = "A" ∧ calculate_grade 79 = "B"
      ∧ calculate_grade 70 = "B" ∧ calculate_grade 69 = "C"
      ∧ calculate_grade 60 = "C" ∧ calculate_grade 59 = "D"
      ∧ calculate_grade 50 = "D" ∧ calculate_grade 49 = "E"
      ∧ calculate_grade 40 = "E" ∧ calculate_grade 39 = "F") := by
  refine ⟨?_, ?_, ?_, ?_⟩
  · intro s
    unfold calculate_grade
    split_ifs <;> simp
  · intro s
    refine ⟨?_, ?_, ?_, ?_, ?_, ?_, ?_⟩ <;>
      (intros ; unfold calculate_grade ; split_ifs <;> first | rfl | omega)
  · intro s t hst
    rw [gradeRank_grade_eq, gradeRank_grade_eq]
    split_ifs <;> omega
  · decide

/-- Witness for C3 at concrete scores. -/
theorem C3_grade_step_function_witness :
    (37 : Int) ≤ 92
      ∧ gradeRank (calculate_grade 37) ≤ gradeRank (calculate_grade 92) :=
  ⟨by decide, C3_grade_step_function.2.2.1 37 92 (by decide)⟩

/-- Claim C7: whenever `parse_subject_scores` extracts nothing from the
text, `add_or_update_marks` returns the fixed "could not parse" guidance
message and returns the session state unchanged (beyond lazy creation) —
no mark is written, removed, or altered. -/
theorem C7_parse_failure_atomic :
    ∀ (text : String) (st : Option SessionData),
      parse_subject_scores text = [] →
      add_or_update_marks text st = (cantParseMsg, getOrCreate st) := by
  intro text st h
  unfold add_or_update_marks
  simp [h]

/-- Witness for C7: "hello there" parses to nothing, and the stored mark
survives untouched. -/
theorem C7_parse_failure_atomic_witness :
    parse_subject_scores "hello there" = []
    ∧ add_or_update_marks "hello there" (some ⟨some "A", [("Maths", 50)], []⟩)
        = (cantParseMsg, getOrCreate (some ⟨some "A", [("Maths", 50)], []⟩)) :=
  ⟨by decide,
   C7_parse_failure_atomic "hello there" (some ⟨some "A", [("Maths", 50)], []⟩) (by decide)⟩

/-- Claim C9: for empty, absent (`None`) or whitespace-only input, `chat`
returns the fixed "Please type something." prompt and performs no routing,
generation or session mutation beyond lazy session creation. -/
theorem C9_empty_input_guard :
    ∀ (o : Oracle) (message : Option String) (st : Option SessionData),
      pyStrip (message.getD "") = "" →
      chat o message st = ("Please type something.", getOrCreate st) := by
  intro o message st h
  unfold chat
  simp [h]

/-- Witness for C9 at a whitespace-only message on a fresh session. -/
theorem C9_empty_input_guard_witness :
    pyStrip ((some "   ").getD "") = ""
    ∧ chat trivialOracle (some "   ") none
        = ("Please type something.", getOrCreate none) :=
  ⟨by decide, C9_empty_input_guard trivialOracle (some "   ") none (by decide)⟩

/-- Claim C1: any message whose lowercased text contains a self-harm
trigger phrase is answered by the fixed safety template — a constant
string, independent of the oracle (so no text-generation call), for every
session state (name bound or not) and message content (digits, positive
words, exit words...), before any other routing step: the whole result of
`chat` is pinned, with only the safety turn appended to history. -/
theorem C1_safety_override :
    ∀ (o : Oracle) (message : String) (st : Option SessionData),
      containsAnyKw (pyLower (pyStrip message)) SUICIDE_KEYWORDS = true →
      chat o (some message) st
        = (safetyText, appendHistory (getOrCreate st) (pyStrip message) safetyText) := by
  intro o message st h
  have hne : ¬ (pyStrip message = "") := by
    intro he
    rw [he] at h
    exact absurd h (by decide)
  unfold chat
  simp [h, hne]

/-- Witness for C1: a concrete triggering message with digits and a
positive word, on a fresh session with no name bound. -/
theorem C1_safety_override_witness :
    containsAnyKw (pyLower (pyStrip "I want to kill myself 100 happy"))
        SUICIDE_KEYWORDS = true
    ∧ chat trivialOracle (some "I want to kill myself 100 happy") none
        = (safetyText,
           appendHistory (getOrCreate none)
             (pyStrip "I want to kill myself 100 happy") safetyText) :=
  ⟨by decide,
   C1_safety_override trivialOracle "I want to kill myself 100 happy" none (by decide)⟩

/-- Claim C2 counterexample: the claim says the three strategies are
fallback-ordered and never merged, so "Maths - 90 in Term1" would yield
exactly one pair.  In the code only the token-scan fallback is guarded by
`if not pairs`; the two findall loops both append, so strategy 1 matches
("Maths", 90), strategy 2 still contributes ("Term", 90), and the input
yields two pairs, not one. -/
theorem C2_strategy_merge_counterexample :
    findallPat1 "Maths - 90 in Term1" = [("Maths", 90)]
    ∧ findallPat2 "Maths - 90 in Term1" = [("Term", 90)]
    ∧ parse_subject_scores "Maths - 90 in Term1" = [("Maths", 90), ("Term", 90)]
    ∧ (parse_subject_scores "Maths - 90 in Term1").length ≠ 1 :=
  ⟨by decide, by decide, by decide, by decide⟩

/-- Claim C2 amended: strategies 1 and 2 are both applied and their
matches concatenated (strategy 1's first); only strategy 3 (the adjacent
token scan) is a fallback, used exactly when strategies 1 and 2 together
yield nothing — so "Maths - 90 in Term1" yields the two pairs
("Maths", 90), ("Term", 90), while "Maths 90 Physics 80" (untouched by
strategies 1 and 2) is handled by the token scan. -/
theorem C2_strategy_order_amended :
    (∀ text : String,
      parse_subject_scores text
        = if (findallPat1 text ++ findallPat2 text).isEmpty
          then fallbackTokenScan text
          else findallPat1 text ++ findallPat2 text)
    ∧ parse_subject_scores "Maths - 90 in Term1" = [("Maths", 90), ("Term", 90)]
    ∧ parse_subject_scores "Maths 90 Physics 80" = [("Maths", 90), ("Physics", 80)]
    ∧ findallPat1 "Maths 90 Physics 80" ++ findallPat2 "Maths 90 Physics 80" = [] :=
  ⟨fun _ => rfl, by decide, by decide, by decide⟩

set_option maxHeartbeats 1000000 in
/-- Claim C10: router keyword matching is substring-based — the digit-free
message "that was remarkable" contains "mark" inside "remarkable", so with
a bound name it is routed to the Grade Engine and answered with the marks
table (or the no-marks message when none are stored), for every oracle,
name, marks and history: affect generators and the fallback agent are
never consulted. -/
theorem C10_substring_keyword_routing :
    ∀ (o : Oracle) (nm : String) (m : List (String × Int))
      (hist : List (String × String)),
      chat o (some "that was remarkable") (some ⟨some nm, m, hist⟩)
        = (if m.isEmpty then noMarksMsg else renderSummary m,
           ⟨some nm, m,
            hist ++ [("that was remarkable",
              if m.isEmpty then noMarksMsg else renderSummary m)]⟩) := by
  intro o nm m hist
  cases m with
  | nil => rfl
  | cons p rest => rfl

/-- Claim C8: `show_marks_table` never mutates session state (its result
state is exactly the lazily-created session) and is idempotent for render
— a second call without an intervening upsert yields the same output; when
the marks mapping is empty it returns the fixed "no marks yet" message
instead of rendering (so the average's division never runs with zero
marks), and otherwise it renders the summary of a nonempty mapping. -/
theorem C8_render_pure_idempotent :
    ∀ st : Option SessionData,
      (show_marks_table st).2 = getOrCreate st
      ∧ (show_marks_table (some (show_marks_table st).2)).1 = (show_marks_table st).1
      ∧ ((getOrCreate st).marks = [] → (show_marks_table st).1 = noMarksMsg)
      ∧ ((getOrCreate st).marks ≠ [] →
          (show_marks_table st).1 = renderSummary (getOrCreate st).marks
          ∧ (getOrCreate st).marks.length ≠ 0) := by
  intro st
  have h2 : (show_marks_table st).2 = getOrCreate st := by
    unfold show_marks_table
    dsimp only
    split_ifs <;> rfl
  refine ⟨h2, ?_, ?_, ?_⟩
  · rw [h2]
    rfl
  · intro h
    simp [show_marks_table, h]
  · intro h
    rcases hm : (getOrCreate st).marks with _ | ⟨p, rest⟩
    · exact absurd hm h
    · simp [show_marks_table, hm]

/-- Witness for C8 on a fresh (empty-marks) session. -/
theorem C8_render_pure_idempotent_witness :
    (getOrCreate none).marks = [] ∧ (show_marks_table none).1 = noMarksMsg :=
  ⟨by decide, (C8_render_pure_idempotent none).2.2.1 (by decide)⟩

/-- Claim C5 counterexample: with a bound name and stored marks, the
digit-free message "what is my score" contains the router keyword "score",
is routed to the Grade Engine tool — but the tool's own report-keyword
list lacks "score"/"scores", so the reply is the guidance message, not the
marks render the claim promises. -/
theorem C5_academic_routing_counterexample :
    (chat trivialOracle (some "what is my score")
        (some ⟨some "Rahul", [("Maths", 91)], []⟩)).1 = guidanceMsg
    ∧ guidanceMsg ≠ renderSummary [("Maths", 91)]
    ∧ guidanceMsg ≠ noMarksMsg :=
  ⟨by decide, by decide, by decide⟩

/-- Claim C5 amended: with a bound name and neither safety nor exit
triggered, a message containing a digit or a router grading-keyword is
routed to the Grade Engine tool (reply and marks update come from
`student_marks_tool`, with the turn appended to history); the tool updates
marks on a digit, renders on one of ITS report keywords
(grade/grades/average/marks/mark/result/report/table/summary — not
"score"/"scores") and otherwise — e.g. for a digit-free message whose only
grading keyword is "score"/"scores" — returns the guidance message, not
the marks render. -/
theorem C5_academic_routing_amended :
    ∀ (o : Oracle) (msg : String) (st : Option SessionData) (nm : String),
      (getOrCreate st).name = some nm →
      containsAnyKw (pyLower (pyStrip msg)) SUICIDE_KEYWORDS = false →
      containsAnyKw (pyLower (pyStrip msg)) EXIT_WORDS = false →
      (hasDigitStr (pyStrip msg)
        || containsAnyKw (pyLower (pyStrip msg)) ROUTER_KEYWORDS) = true →
      chat o (some msg) st
        = ((student_marks_tool (pyStrip msg) (some (getOrCreate st))).1,
           appendHistory (student_marks_tool (pyStrip msg) (some (getOrCreate st))).2
             (pyStrip msg)
             (student_marks_tool (pyStrip msg) (some (getOrCreate st))).1)
      ∧ (containsAnyKw (pyLower (pyStrip msg)) SCALE_KEYWORDS = false →
         hasDigitStr (pyStrip msg) = false →
         containsAnyKw (pyLower (pyStrip msg)) REPORT_KEYWORDS = false →
         (chat o (some msg) st).1 = guidanceMsg) := by
  intro o msg st nm hname hsafe hexit hacad
  have hne : ¬ (pyStrip msg = "") := by
    intro he
    rw [he] at hacad
    exact absurd hacad (by decide)
  constructor
  · unfold chat
    simp [hne, hsafe, hexit, hname, hacad]
  · intro hscale hdig hrep
    have hrouter : containsAnyKw (pyLower (pyStrip msg)) ROUTER_KEYWORDS = true := by
      rw [hdig] at hacad
      simpa using hacad
    unfold chat student_marks_tool
    simp [hne, hsafe, hexit, hname, hrouter, hscale, hdig, hrep]

/-- Witness for C5 (amended) at a digit-free report-keyword message. -/
theorem C5_academic_routing_witness :
    chat trivialOracle (some "show my marks")
        (some ⟨some "Rahul", [("Maths", 91)], []⟩)
      = ((student_marks_tool (pyStrip "show my marks")
            (some (getOrCreate (some ⟨some "Rahul", [("Maths", 91)], []⟩)))).1,
         appendHistory
           (student_marks_tool (pyStrip "show my marks")
             (some (getOrCreate (some ⟨some "Rahul", [("Maths", 91)], []⟩)))).2
           (pyStrip "show my marks")
           (student_marks_tool (pyStrip "show my marks")
             (some (getOrCreate (some ⟨some "Rahul", [("Maths", 91)], []⟩)))).1) :=
  (C5_academic_routing_amended trivialOracle "show my marks"
    (some ⟨some "Rahul", [("Maths", 91)], []⟩) "Rahul"
    (by decide) (by decide) (by decide) (by decide)).1

/-- `student_marks_tool` can change marks but never the conversation
history of the session it is given. -/
lemma student_marks_tool_history (text : String) (s : SessionData) :
    (student_marks_tool text (some s)).2.history = s.history := by
  unfold student_marks_tool add_or_update_marks show_marks_table getOrCreate
  dsimp only
  split_ifs <;> rfl

/-- Claim C6 counterexample: the exit branch is a non-name-binding branch
that generates a reply but does NOT append the (input, reply) pair to the
session history — "bye" with a bound name leaves the history exactly as it
was. -/
theorem C6_history_append_counterexample :
    chat trivialOracle (some "bye") (some ⟨some "Rahul", [], [("hi", "hello")]⟩)
      = (byeReply (some "Rahul"), ⟨some "Rahul", [], [("hi", "hello")]⟩)
    ∧ (chat trivialOracle (some "bye")
        (some ⟨some "Rahul", [], [("hi", "hello")]⟩)).2.history
      = [("hi", "hello")] :=
  ⟨by decide, by decide⟩

/-- Claim C6 amended: the safety, academic, positive-affect and
negative-affect branches of `chat` all append the (input, reply) pair to
the session history after generating the reply; the exit branch — also a
non-name-binding branch — returns its canned sign-off WITHOUT touching the
session (so the original claim's "every non-name-binding branch" fails
exactly there); the fallback branch delegates history keeping to the
external agent. -/
theorem C6_history_append_amended :
    ∀ (o : Oracle) (msg : String) (st : Option SessionData),
      (containsAnyKw (pyLower (pyStrip msg)) SUICIDE_KEYWORDS = true →
        (chat o (some msg) st).2.history
          = (getOrCreate st).history ++ [(pyStrip msg, (chat o (some msg) st).1)])
      ∧ (pyStrip msg ≠ "" →
         containsAnyKw (pyLower (pyStrip msg)) SUICIDE_KEYWORDS = false →
         containsAnyKw (pyLower (pyStrip msg)) EXIT_WORDS = true →
         chat o (some msg) st = (byeReply (getOrCreate st).name, getOrCreate st))
      ∧ (∀ nm, (getOrCreate st).name = some nm →
         containsAnyKw (pyLower (pyStrip msg)) SUICIDE_KEYWORDS = false →
         containsAnyKw (pyLower (pyStrip msg)) EXIT_WORDS = false →
         (hasDigitStr (pyStrip msg)
           || containsAnyKw (pyLower (pyStrip msg)) ROUTER_KEYWORDS) = true →
         (chat o (some msg) st).2.history
           = (getOrCreate st).history ++ [(pyStrip msg, (chat o (some msg) st).1)])
      ∧ (∀ nm, (getOrCreate st).name = some nm →
         containsAnyKw (pyLower (pyStrip msg)) SUICIDE_KEYWORDS = false →
         containsAnyKw (pyLower (pyStrip msg)) EXIT_WORDS = false →
         (hasDigitStr (pyStrip msg)
           || containsAnyKw (pyLower (pyStrip msg)) ROUTER_KEYWORDS) = false →
         containsAnyKw (pyLower (pyStrip msg)) POSITIVE_WORDS = true →
         (chat o (some msg) st).2.history
           = (getOrCreate st).history ++ [(pyStrip msg, (chat o (some msg) st).1)])
      ∧ (∀ nm, (getOrCreate st).name = some nm →
         containsAnyKw (pyLower (pyStrip msg)) SUICIDE_KEYWORDS = false →
         containsAnyKw (pyLower (pyStrip msg)) EXIT_WORDS = false →
         (hasDigitStr (pyStrip msg)
           || containsAnyKw (pyLower (pyStrip msg)) ROUTER_KEYWORDS) = false →
         containsAnyKw (pyLower (pyStrip msg)) POSITIVE_WORDS = false →
         containsAnyKw (pyLower (pyStrip msg)) NEGATIVE_WORDS = true →
         (chat o (some msg) st).2.history
           = (getOrCreate st).history ++ [(pyStrip msg, (chat o (some msg) st).1)]) := by
  intro o msg st
  refine ⟨?_, ?_, ?_, ?_, ?_⟩
  · intro h
    have hne : ¬ (pyStrip msg = "") := by
      intro he
      rw [he] at h
      exact absurd h (by decide)
    unfold chat
    simp [h, hne, appendHistory]
  · intro hne hsafe hexit
    unfold chat
    simp [hne, hsafe, hexit]
  · intro nm hname hsafe hexit hacad
    have hne : ¬ (pyStrip msg = "") := by
      intro he
      rw [he] at hacad
      exact absurd hacad (by decide)
    unfold chat
    simp [hne, hsafe, hexit, hname, hacad, appendHistory, student_marks_tool_history]
  · intro nm hname hsafe hexit hacad hpos
    have hne : ¬ (pyStrip msg = "") := by
      intro he
      rw [he] at hpos
      exact absurd hpos (by decide)
    unfold chat
    simp [hne, hsafe, hexit, hname, hacad, hpos, appendHistory]
  · intro nm hname hsafe hexit hacad hpos hneg
    have hne : ¬ (pyStrip msg = "") := by
      intro he
      rw [he] at hneg
      exact absurd hneg (by decide)
    unfold chat
    simp [hne, hsafe, hexit, hname, hacad, hpos, hneg, appendHistory]

/-- Witness for C6 (amended): the safety branch on a concrete message
appends the turn. -/
theorem C6_history_append_witness :
    (chat trivialOracle (some "suicide") none).2.history
      = (getOrCreate none).history
        ++ [(pyStrip "suicide", (chat trivialOracle (some "suicide") none).1)] :=
  (C6_history_append_amended trivialOracle "suicide" none).1 (by decide)

/-- Keys of the marks mapping are pairwise distinct. -/
def marksKeysUnique (m : List (String × Int)) : Prop :=
  (m.map Prod.fst).Nodup

/-- Every stored score lies in [0, 100]. -/
def marksInRange (m : List (String × Int)) : Prop :=
  ∀ p ∈ m, 0 ≤ p.2 ∧ p.2 ≤ 100

/-- The stored value of a clamped score is always in range. -/
lemma clampScore_mem_range (v : Int) : 0 ≤ clampScore v ∧ clampScore v ≤ 100 := by
  unfold clampScore
  exact ⟨le_max_left 0 _, max_le (by norm_num) (min_le_right v 100)⟩

/-- Upserting never introduces a duplicate key. -/
lemma upsertPair_keysUnique (m : List (String × Int)) (k : String) (v : Int)
    (h : marksKeysUnique m) : marksKeysUnique (upsertPair m k v) := by
  unfold upsertPair
  split_ifs with hmem
  · have heq : (m.map (fun p => if p.1 == k then (k, v) else p)).map Prod.fst
        = m.map Prod.fst := by
      rw [List.map_map]
      apply List.map_congr_left
      intro p _
      by_cases hpk : p.1 = k
      · simp [hpk]
      · simp [hpk]
    unfold marksKeysUnique
    rw [heq]
    exact h
  · unfold marksKeysUnique at h ⊢
    rw [List.map_append, List.nodup_append]
    refine ⟨h, by simp, ?_⟩
    intro a ha hb
    rw [List.map_singleton, List.mem_singleton] at hb
    subst hb
    rw [List.mem_map] at ha
    obtain ⟨p, hp, hpa⟩ := ha
    exact hmem (List.any_eq_true.mpr ⟨p, hp, by simp [hpa]⟩)

/-- Upserting a value in [0, 100] keeps every stored score in range. -/
lemma upsertPair_inRange (m : List (String × Int)) (k : String) (v : Int)
    (hm : marksInRange m) (hv : 0 ≤ v ∧ v ≤ 100) :
    marksInRange (upsertPair m k v) := by
  unfold upsertPair
  split_ifs with hmem
  · intro p hp
    rw [List.mem_map] at hp
    obtain ⟨q, hq, rfl⟩ := hp
    by_cases hqk : q.1 = k
    · simpa [hqk] using hv
    · simpa [hqk] using hm q hq
  · intro p hp
    rw [List.mem_append] at hp
    rcases hp with hp | hp
    · exact hm p hp
    · rw [List.mem_singleton] at hp
      subst hp
      exact hv

/-- Folding clamped upserts over any parsed pair list preserves both parts
of the marks invariant. -/
lemma foldl_upsert_invariant (pairs m : List (String × Int))
    (hu : marksKeysUnique m) (hr : marksInRange m) :
    marksKeysUnique
        (pairs.foldl (fun acc p => upsertPair acc p.1 (clampScore p.2)) m)
    ∧ marksInRange
        (pairs.foldl (fun acc p => upsertPair acc p.1 (clampScore p.2)) m) := by
  induction pairs generalizing m with
  | nil => exact ⟨hu, hr⟩
  | cons p ps ih =>
    exact ih _ (upsertPair_keysUnique _ _ _ hu)
      (upsertPair_inRange _ _ _ hr (clampScore_mem_range _))

/-- Claim C4: `add_or_update_marks` preserves the marks invariant (unique
keys, each key bound to a single score in [0, 100]); parsed scores are
clamped before storage (a parsed 150 stores 100; the clamp sends -5 to 0);
and re-upserting an existing subject overwrites it last-write-wins, so
"Maths - 70" then "Maths - 95" leaves exactly one Maths entry at 95. -/
theorem C4_marks_clamped_unique :
    (∀ (text : String) (st : Option SessionData),
      marksKeysUnique (getOrCreate st).marks →
      marksInRange (getOrCreate st).marks →
      marksKeysUnique (add_or_update_marks text st).2.marks
        ∧ marksInRange (add_or_update_marks text st).2.marks)
    ∧ clampScore 150 = 100 ∧ clampScore (-5) = 0
    ∧ (add_or_update_marks "Maths - 150" none).2.marks = [("Maths", 100)]
    ∧ (add_or_update_marks "Maths - 95"
        (some (add_or_update_marks "Maths - 70" none).2)).2.marks
      = [("Maths", 95)] := by
  refine ⟨?_, by decide, by decide, by decide, by decide⟩
  intro text st hu hr
  unfold add_or_update_marks
  dsimp only
  split_ifs with hp
  · exact ⟨hu, hr⟩
  · exact foldl_upsert_invariant _ _ hu hr

/-- Witness for C4 on the fresh session and a to-be-clamped score. -/
theorem C4_marks_clamped_unique_witness :
    marksKeysUnique (getOrCreate none).marks
    ∧ marksInRange (getOrCreate none).marks
    ∧ (marksKeysUnique (add_or_update_marks "Maths - 150" none).2.marks
       ∧ marksInRange (add_or_update_marks "Maths - 150" none).2.marks) :=
  ⟨by simp [marksKeysUnique, getOrCreate],
   by simp [marksInRange, getOrCreate],
   C4_marks_clamped_unique.1 "Maths - 150" none
     (by simp [marksKeysUnique, getOrCreate])
     (by simp [marksInRange, getOrCreate])⟩
